import Mathlib

set_option maxRecDepth 4000
set_option maxHeartbeats 1000000

/-!
Verification development for the blenderbim batch-synthesis backend.

The repository has two service variants that turn a batch of
"create element" tool calls into an IFC building model:

  * `main.py` (FastAPI + ifcopenshell): namespace `MainPy` below.
  * `blender_generator.py` (Blender + BlenderBIM addon): namespace `Blender`.

We embed both shallowly.  Numeric parameters are modelled as exact
rationals (the Python sources only ever combine them with `+ * / -`, so
the rational model is exact).  The external collaborators (the
ifcopenshell geometry kernel, the Blender mesh kernel, `json.loads`, the
file writer) are modelled at their interface boundary: entity records
hold exactly the fields the source passes to the kernel, and the export
and JSON-parsing boundaries are oracle parameters of the orchestrator.
-/

namespace BB

/-- A 3-component vector of exact rationals (used for directions,
locations and the translation column of placement matrices; every
placement matrix built by `main.py` is identity rotation plus a
translation, so the translation column is the whole content). -/
structure Vec3 where
  x : ℚ
  y : ℚ
  z : ℚ
deriving DecidableEq, Repr

/-- Profile definitions the source creates (`IfcRectangleProfileDef`
with `XDim`/`YDim`, `IfcCircleProfileDef` with `Radius`). -/
inductive Profile where
  | rect (xdim ydim : ℚ)
  | circle (radius : ℚ)
deriving DecidableEq, Repr

/-- Geometry items handed to the kernel: `IfcExtrudedAreaSolid`
(profile, `Position` location, `Position` axis and ref direction,
`ExtrudedDirection`, `Depth`) and `IfcRevolvedAreaSolid` (profile,
`Position` location/axis/ref, revolution axis location and direction,
angle).  Fields mirror exactly what the source sets. -/
inductive SolidItem where
  | extruded (profile : Profile) (posLoc : Vec3) (posAxis : Vec3) (posRef : Vec3)
      (dir : Vec3) (depth : ℚ)
  | revolved (profile : Profile) (posLoc : Vec3) (posAxis : Vec3) (posRef : Vec3)
      (axisLoc : Vec3) (axisDir : Vec3) (angle : ℚ)
deriving DecidableEq, Repr

/-- An IFC product as built by one `create_*` handler of `main.py`:
class, name, the geometry items of its shape representation and the
translation column of its object placement matrix. -/
structure Product where
  pid : Nat
  ifcClass : String
  name : String
  geometry : List SolidItem
  translation : Vec3
deriving DecidableEq, Repr

/-- The state of one in-progress IFC file.  `spatial` holds the
spatial-structure entities (id, class, name), `aggregates` the
`aggregate.assign_object` edges (parent id, child id), `products` the
products created so far and `contained` the
`spatial.assign_container` edges (product id, storey id).
Entity ids are abstract: the skeleton gets ids 0..3 and each product a
fresh id from `nextId`. -/
structure IfcState where
  nextId : Nat
  spatial : List (Nat × String × String)
  aggregates : List (Nat × Nat)
  products : List Product
  contained : List (Nat × Nat)
deriving DecidableEq, Repr

/-- A parameter mapping (the `params` dict of a tool call).  The source
reads numeric keys with `params.get(key, number_default)` and the single
string key `"name"` with a string default; we split the dict by value
type, i.e. we model well-typed inputs. -/
structure Params where
  nums : List (String × ℚ)
  strs : List (String × String)
deriving DecidableEq, Repr

/-- `params.get(k, d)` for a numeric parameter. -/
def Params.getNum (p : Params) (k : String) (d : ℚ) : ℚ :=
  match p.nums.lookup k with
  | some v => v
  | none => d

/-- `params.get(k, d)` for a string parameter. -/
def Params.getStr (p : Params) (k : String) (d : String) : String :=
  match p.strs.lookup k with
  | some v => v
  | none => d

/-- Python `range(n)` applied to a number: defined only when the value
is an integer (a non-integer raises `TypeError`); a negative integer
gives the empty range. -/
def pyRange (q : ℚ) : Option (List Nat) :=
  if q.den = 1 then some (List.range q.num.toNat) else none

/-- `spatial.assign_container(products=[pid], relating_structure=storey)`. -/
def assignContainer (st : IfcState) (pid storey : Nat) : IfcState :=
  { st with contained := st.contained ++ [(pid, storey)] }

/-- The common effect sequence of every primitive handler of `main.py`:
`root.create_entity` (fresh product), build its representation and
placement, then `spatial.assign_container` to the storey.  Returns the
new state and the fresh product id. -/
def emitProduct (st : IfcState) (storey : Nat) (cls nm : String)
    (geom : List SolidItem) (tr : Vec3) : IfcState × Nat :=
  let p : Product := ⟨st.nextId, cls, nm, geom, tr⟩
  let st1 : IfcState :=
    { st with nextId := st.nextId + 1, products := st.products ++ [p] }
  (assignContainer st1 st.nextId storey, st.nextId)

/-- A handler outcome: the state after the handler ran (kept even when
the handler raised part-way, as in Python, where entities already added
to the file stay in it) plus the exception message if one was raised. -/
abbrev HResult := IfcState × Option String

/-- Sequencing of handler calls inside a composite handler: an
exception aborts the rest of the composite but keeps the state built so
far (Python exception propagation). -/
def hseq (r : HResult) (k : IfcState → HResult) : HResult :=
  match r with
  | (st, some e) => (st, some e)
  | (st, none) => k st

/-- The type of the `main.py` element handlers
(`ifc_file`/state, `storey`, `params`). -/
abbrev Handler := IfcState → Nat → Params → HResult

end BB

namespace BB.MainPy

open BB

/-- `create_ifc_project(project_name)` from `main.py`: builds the
Project/Site/Building/Storey skeleton once, aggregates
project → site → building → storey, and returns the file state and the
storey (ids: project 0, site 1, building 2, storey 3; the unit and
context entities the source also creates carry no claim-relevant data
and are not tracked).  The bodies context return value is dropped. -/
def create_ifc_project (projectName : String) : IfcState × Nat :=
  let st : IfcState :=
    { nextId := 4
      spatial := [(0, "IfcProject", projectName), (1, "IfcSite", "Site"),
                  (2, "IfcBuilding", "Building"), (3, "IfcBuildingStorey", "Ground Floor")]
      aggregates := [(0, 1), (1, 2), (2, 3)]
      products := []
      contained := [] }
  (st, 3)

/-- `create_box` from `main.py`: rectangle profile `width × depth`
extruded along z by `height`; placement z is `z + height / 2`
(the comment in the source says "Position bottom at z, not center"). -/
def create_box (st : IfcState) (storey : Nat) (params : Params) : HResult :=
  let width := params.getNum "width" 1
  let height := params.getNum "height" 1
  let depth := params.getNum "depth" 1
  let geom := [SolidItem.extruded (Profile.rect width depth)
      ⟨0, 0, 0⟩ ⟨0, 0, 1⟩ ⟨1, 0, 0⟩ ⟨0, 0, 1⟩ height]
  let x := params.getNum "x" 0
  let y := params.getNum "y" 0
  let z := params.getNum "z" 0
  let zAdjusted := z + height / 2
  ((emitProduct st storey "IfcBuildingElementProxy" (params.getStr "name" "Box")
      geom ⟨x, y, zAdjusted⟩).1, none)

/-- `create_sphere` from `main.py`: circle profile revolved 360 degrees;
placement z is `z + radius`. -/
def create_sphere (st : IfcState) (storey : Nat) (params : Params) : HResult :=
  let radius := params.getNum "radius" (1/2)
  let geom := [SolidItem.revolved (Profile.circle radius)
      ⟨0, 0, 0⟩ ⟨1, 0, 0⟩ ⟨0, 1, 0⟩ ⟨0, 0, 0⟩ ⟨0, 0, 1⟩ 360]
  let x := params.getNum "x" 0
  let y := params.getNum "y" 0
  let z := params.getNum "z" 0
  let zAdjusted := z + radius
  ((emitProduct st storey "IfcBuildingElementProxy" (params.getStr "name" "Sphere")
      geom ⟨x, y, zAdjusted⟩).1, none)

/-- `create_cylinder` from `main.py`: circle profile extruded along z by
`height`; placement z is `z + height / 2`. -/
def create_cylinder (st : IfcState) (storey : Nat) (params : Params) : HResult :=
  let radius := params.getNum "radius" (1/2)
  let height := params.getNum "height" 1
  let geom := [SolidItem.extruded (Profile.circle radius)
      ⟨0, 0, 0⟩ ⟨0, 0, 1⟩ ⟨1, 0, 0⟩ ⟨0, 0, 1⟩ height]
  let x := params.getNum "x" 0
  let y := params.getNum "y" 0
  let z := params.getNum "z" 0
  let zAdjusted := z + height / 2
  ((emitProduct st storey "IfcBuildingElementProxy" (params.getStr "name" "Cylinder")
      geom ⟨x, y, zAdjusted⟩).1, none)

/-- `create_cone` from `main.py` (the source approximates the cone by an
extruded circle): circle profile extruded along z by `height`;
placement z is `z + height / 2`. -/
def create_cone (st : IfcState) (storey : Nat) (params : Params) : HResult :=
  let radius := params.getNum "radius" (1/2)
  let height := params.getNum "height" 1
  let geom := [SolidItem.extruded (Profile.circle radius)
      ⟨0, 0, 0⟩ ⟨0, 0, 1⟩ ⟨1, 0, 0⟩ ⟨0, 0, 1⟩ height]
  let x := params.getNum "x" 0
  let y := params.getNum "y" 0
  let z := params.getNum "z" 0
  let zAdjusted := z + height / 2
  ((emitProduct st storey "IfcBuildingElementProxy" (params.getStr "name" "Cone")
      geom ⟨x, y, zAdjusted⟩).1, none)

/-- `create_plane` from `main.py`: rectangle profile `width × height`
extruded along z by `0.001`; placement z is `z` (no adjustment). -/
def create_plane (st : IfcState) (storey : Nat) (params : Params) : HResult :=
  let width := params.getNum "width" 1
  let height := params.getNum "height" 1
  let geom := [SolidItem.extruded (Profile.rect width height)
      ⟨0, 0, 0⟩ ⟨0, 0, 1⟩ ⟨1, 0, 0⟩ ⟨0, 0, 1⟩ (1/1000)]
  let x := params.getNum "x" 0
  let y := params.getNum "y" 0
  let z := params.getNum "z" 0
  ((emitProduct st storey "IfcBuildingElementProxy" (params.getStr "name" "Plane")
      geom ⟨x, y, z⟩).1, none)

/-- `create_torus` from `main.py`: circle profile (tube radius) revolved
about a z axis through `(radius, 0, 0)`; placement z is `z + tube`. -/
def create_torus (st : IfcState) (storey : Nat) (params : Params) : HResult :=
  let radius := params.getNum "radius" 1
  let tube := params.getNum "tube" (3/10)
  let geom := [SolidItem.revolved (Profile.circle tube)
      ⟨radius, 0, 0⟩ ⟨0, 1, 0⟩ ⟨1, 0, 0⟩ ⟨radius, 0, 0⟩ ⟨0, 0, 1⟩ 360]
  let x := params.getNum "x" 0
  let y := params.getNum "y" 0
  let z := params.getNum "z" 0
  let zAdjusted := z + tube
  ((emitProduct st storey "IfcBuildingElementProxy" (params.getStr "name" "Torus")
      geom ⟨x, y, zAdjusted⟩).1, none)

/-- `create_wall` from `main.py`: rectangle profile
`thickness × height` in a Position whose axis is `(0,1,0)`, extruded
along `(1,0,0)` by `length`; placement z is `z` (no adjustment).  The
parameters are used exactly as supplied (no unit rescaling anywhere in
the source).  The property set the source attaches carries no
claim-relevant data and is not tracked. -/
def create_wall (st : IfcState) (storey : Nat) (params : Params) : HResult :=
  let length := params.getNum "length" 5
  let height := params.getNum "height" 3
  let thickness := params.getNum "thickness" (1/5)
  let geom := [SolidItem.extruded (Profile.rect thickness height)
      ⟨0, 0, 0⟩ ⟨0, 1, 0⟩ ⟨1, 0, 0⟩ ⟨1, 0, 0⟩ length]
  let x := params.getNum "x" 0
  let y := params.getNum "y" 0
  let z := params.getNum "z" 0
  ((emitProduct st storey "IfcWall" (params.getStr "name" "Wall")
      geom ⟨x, y, z⟩).1, none)

/-- `create_door` from `main.py`: rectangle profile `width × height`
extruded along z by `thickness`; placement z is `z`. -/
def create_door (st : IfcState) (storey : Nat) (params : Params) : HResult :=
  let width := params.getNum "width" (9/10)
  let height := params.getNum "height" (21/10)
  let thickness := params.getNum "thickness" (1/20)
  let geom := [SolidItem.extruded (Profile.rect width height)
      ⟨0, 0, 0⟩ ⟨0, 0, 1⟩ ⟨1, 0, 0⟩ ⟨0, 0, 1⟩ thickness]
  let x := params.getNum "x" 0
  let y := params.getNum "y" 0
  let z := params.getNum "z" 0
  ((emitProduct st storey "IfcDoor" (params.getStr "name" "Door")
      geom ⟨x, y, z⟩).1, none)

/-- `create_window` from `main.py`: rectangle profile `width × height`
(defaults 1.2 and 1.5) extruded along z by the fixed depth `0.05`;
placement z is `z`. -/
def create_window (st : IfcState) (storey : Nat) (params : Params) : HResult :=
  let width := params.getNum "width" (6/5)
  let height := params.getNum "height" (3/2)
  let geom := [SolidItem.extruded (Profile.rect width height)
      ⟨0, 0, 0⟩ ⟨0, 0, 1⟩ ⟨1, 0, 0⟩ ⟨0, 0, 1⟩ (1/20)]
  let x := params.getNum "x" 0
  let y := params.getNum "y" 0
  let z := params.getNum "z" 0
  ((emitProduct st storey "IfcWindow" (params.getStr "name" "Window")
      geom ⟨x, y, z⟩).1, none)

/-- `create_column` from `main.py`: rectangle profile `width × depth`
extruded along z by `height`; the source then sets the placement z to
`z + height / 2` (its comment: "Position bottom at z"). -/
def create_column (st : IfcState) (storey : Nat) (params : Params) : HResult :=
  let width := params.getNum "width" (3/10)
  let depth := params.getNum "depth" (3/10)
  let height := params.getNum "height" 3
  let geom := [SolidItem.extruded (Profile.rect width depth)
      ⟨0, 0, 0⟩ ⟨0, 0, 1⟩ ⟨1, 0, 0⟩ ⟨0, 0, 1⟩ height]
  let x := params.getNum "x" 0
  let y := params.getNum "y" 0
  let z := params.getNum "z" 0
  let zAdjusted := z + height / 2
  ((emitProduct st storey "IfcColumn" (params.getStr "name" "Column")
      geom ⟨x, y, zAdjusted⟩).1, none)

/-- `create_beam` from `main.py`: rectangle profile `width × height`
extruded along `(1,0,0)` by `length`; placement z is `z`. -/
def create_beam (st : IfcState) (storey : Nat) (params : Params) : HResult :=
  let width := params.getNum "width" (3/10)
  let height := params.getNum "height" (2/5)
  let length := params.getNum "length" 5
  let geom := [SolidItem.extruded (Profile.rect width height)
      ⟨0, 0, 0⟩ ⟨0, 0, 1⟩ ⟨1, 0, 0⟩ ⟨1, 0, 0⟩ length]
  let x := params.getNum "x" 0
  let y := params.getNum "y" 0
  let z := params.getNum "z" 0
  ((emitProduct st storey "IfcBeam" (params.getStr "name" "Beam")
      geom ⟨x, y, z⟩).1, none)

/-- `create_slab` from `main.py`: rectangle profile `width × depth`
extruded along z by `thickness`; placement z is `z`. -/
def create_slab (st : IfcState) (storey : Nat) (params : Params) : HResult :=
  let width := params.getNum "width" 10
  let depth := params.getNum "depth" 10
  let thickness := params.getNum "thickness" (1/5)
  let geom := [SolidItem.extruded (Profile.rect width depth)
      ⟨0, 0, 0⟩ ⟨0, 0, 1⟩ ⟨1, 0, 0⟩ ⟨0, 0, 1⟩ thickness]
  let x := params.getNum "x" 0
  let y := params.getNum "y" 0
  let z := params.getNum "z" 0
  ((emitProduct st storey "IfcSlab" (params.getStr "name" "Slab")
      geom ⟨x, y, z⟩).1, none)

/-- `create_stairs` from `main.py`.  The source loops
`for i in range(steps)` building one extrusion per step, but keeps only
the extrusion of step 0 in `items` and executes `break` in the second
iteration ("For simplicity, create single geometry representing
stairs"), so the shape representation holds exactly one step solid for
every `steps >= 1`.  A non-integer `steps` raises `TypeError` at
`range`; `steps = 0` leaves `items` unbound and raises `NameError`;
both raise before any product is created. -/
def create_stairs (st : IfcState) (storey : Nat) (params : Params) : HResult :=
  let width := params.getNum "width" (6/5)
  let steps := params.getNum "steps" 10
  let stepHeight := params.getNum "stepHeight" (9/50)
  let stepDepth := params.getNum "stepDepth" (7/25)
  match pyRange steps with
  | none => (st, some "TypeError: steps cannot be interpreted as an integer")
  | some is =>
    if is.isEmpty then
      (st, some "NameError: name items is not defined")
    else
      let items := [SolidItem.extruded (Profile.rect width stepDepth)
          ⟨0, 0, 0⟩ ⟨0, 0, 1⟩ ⟨1, 0, 0⟩ ⟨0, 0, 1⟩ stepHeight]
      let x := params.getNum "x" 0
      let y := params.getNum "y" 0
      let z := params.getNum "z" 0
      ((emitProduct st storey "IfcStair" (params.getStr "name" "Stairs")
          items ⟨x, y, z⟩).1, none)

/-- `create_roof` from `main.py`: rectangle profile `width × depth`
extruded along z by the fixed thickness `0.2`; placement z defaults to
`3.0`.  (The source computes `roof_height` from the pitch with
`math.tan` but never uses it; that dead local is omitted.) -/
def create_roof (st : IfcState) (storey : Nat) (params : Params) : HResult :=
  let width := params.getNum "width" 10
  let depth := params.getNum "depth" 10
  let geom := [SolidItem.extruded (Profile.rect width depth)
      ⟨0, 0, 0⟩ ⟨0, 0, 1⟩ ⟨1, 0, 0⟩ ⟨0, 0, 1⟩ (1/5)]
  let x := params.getNum "x" 0
  let y := params.getNum "y" 0
  let z := params.getNum "z" 3
  ((emitProduct st storey "IfcRoof" (params.getStr "name" "Roof")
      geom ⟨x, y, z⟩).1, none)

/-- `create_room` from `main.py`: one floor slab, four perimeter walls
(front, back, left, right) and one ceiling slab, each created through
`create_slab` / `create_wall` with derived parameter dicts, in this
fixed order.  (`rotationY` is passed to the side walls but
`create_wall` never reads it.) -/
def create_room (st : IfcState) (storey : Nat) (params : Params) : HResult :=
  let width := params.getNum "width" 5
  let depth := params.getNum "depth" 5
  let height := params.getNum "height" (27/10)
  let wallThickness := params.getNum "wallThickness" (1/5)
  let xb := params.getNum "x" 0
  let yb := params.getNum "y" 0
  let zb := params.getNum "z" 0
  let nm := params.getStr "name" "Room"
  hseq (create_slab st storey
      ⟨[("width", width), ("depth", depth), ("thickness", 1/5),
        ("x", xb), ("y", yb), ("z", zb)], [("name", nm ++ "_Floor")]⟩) fun st1 =>
  hseq (create_wall st1 storey
      ⟨[("length", width), ("height", height), ("thickness", wallThickness),
        ("x", xb), ("y", yb), ("z", zb)], [("name", nm ++ "_Wall_Front")]⟩) fun st2 =>
  hseq (create_wall st2 storey
      ⟨[("length", width), ("height", height), ("thickness", wallThickness),
        ("x", xb), ("y", yb + depth), ("z", zb)], [("name", nm ++ "_Wall_Back")]⟩) fun st3 =>
  hseq (create_wall st3 storey
      ⟨[("length", depth), ("height", height), ("thickness", wallThickness),
        ("x", xb), ("y", yb), ("z", zb), ("rotationY", 90)],
       [("name", nm ++ "_Wall_Left")]⟩) fun st4 =>
  hseq (create_wall st4 storey
      ⟨[("length", depth), ("height", height), ("thickness", wallThickness),
        ("x", xb + width), ("y", yb), ("z", zb), ("rotationY", 90)],
       [("name", nm ++ "_Wall_Right")]⟩) fun st5 =>
  create_slab st5 storey
      ⟨[("width", width), ("depth", depth), ("thickness", 1/5),
        ("x", xb), ("y", yb), ("z", zb + height)], [("name", nm ++ "_Ceiling")]⟩

/-- One iteration of the per-floor loop of `create_building`: four
corner columns (enumerated positions) and, for floors above the ground
floor, one floor slab. -/
def buildingFloor (storey : Nat) (nm : String) (width depth floorHeight : ℚ)
    (st : IfcState) (fl : Nat) : HResult :=
  let zLevel := (fl : ℚ) * floorHeight
  let positions : List (ℚ × ℚ) := [(0, 0), (width, 0), (0, depth), (width, depth)]
  hseq (positions.enum.foldl (fun acc pr =>
      hseq acc fun stA =>
        create_column stA storey
          ⟨[("width", 2/5), ("depth", 2/5), ("height", floorHeight),
            ("x", pr.2.1), ("y", pr.2.2), ("z", zLevel)],
           [("name", nm ++ "_Column_" ++ toString fl ++ "_" ++ toString pr.1)]⟩)
      (st, none)) fun stN =>
  if fl > 0 then
    create_slab stN storey
      ⟨[("width", width), ("depth", depth), ("thickness", 1/5),
        ("x", 0), ("y", 0), ("z", zLevel)],
       [("name", nm ++ "_Floor_" ++ toString fl)]⟩
  else (stN, none)

/-- `create_building` from `main.py`: foundation slab, then per floor
four corner columns and (above ground) a floor slab, then a roof at
`floors * floor_height`.  A non-integer `floors` raises `TypeError` at
`range` after the foundation slab was already created. -/
def create_building (st : IfcState) (storey : Nat) (params : Params) : HResult :=
  let width := params.getNum "width" 10
  let depth := params.getNum "depth" 10
  let floors := params.getNum "floors" 2
  let floorHeight := params.getNum "floorHeight" 3
  let nm := params.getStr "name" "Building"
  hseq (create_slab st storey
      ⟨[("width", width), ("depth", depth), ("thickness", 3/10),
        ("x", 0), ("y", 0), ("z", 0)], [("name", nm ++ "_Foundation")]⟩) fun st1 =>
  match pyRange floors with
  | none => (st1, some "TypeError: floors cannot be interpreted as an integer")
  | some fls =>
    hseq (fls.foldl (fun acc fl =>
        hseq acc fun stA => buildingFloor storey nm width depth floorHeight stA fl)
        (st1, none)) fun stN =>
    create_roof stN storey
      ⟨[("width", width), ("depth", depth), ("pitch", 30),
        ("x", 0), ("y", 0), ("z", floors * floorHeight)],
       [("name", nm ++ "_Roof")]⟩

end BB.MainPy

namespace BB.MainPy

/-- The `ELEMENT_HANDLERS` dict of `main.py`, in source order. -/
def ELEMENT_HANDLERS : List (String × Handler) := [
  ("create_box", create_box),
  ("create_sphere", create_sphere),
  ("create_cylinder", create_cylinder),
  ("create_cone", create_cone),
  ("create_plane", create_plane),
  ("create_torus", create_torus),
  ("create_wall", create_wall),
  ("create_door", create_door),
  ("create_window", create_window),
  ("create_column", create_column),
  ("create_beam", create_beam),
  ("create_slab", create_slab),
  ("create_stairs", create_stairs),
  ("create_roof", create_roof),
  ("create_room", create_room),
  ("create_building", create_building)]

/-- The `arguments` field of a tool call: either already a dict or a
string to be parsed with `json.loads`. -/
inductive ArgVal where
  | dict (p : Params)
  | str (s : String)
deriving DecidableEq

/-- One entry of `request.tool_calls`: `function.get("name")` (absent
keys give `None`) and `function.get("arguments", {})`. -/
structure ToolCall where
  name : Option String
  arguments : ArgVal
deriving DecidableEq

/-- What `generate_ifc` prints while processing (modelled so that the
run log is inspectable): the per-call "Processing" line, the success
line, the caught-exception line and the unknown-kind line. -/
inductive LogEntry where
  | processing (name : Option String)
  | createdMsg (fname : String) (elemName : String)
  | failedMsg (fname : String) (err : String)
  | unknownKind (name : Option String)
deriving DecidableEq, Repr

/-- `true` exactly on the two failure log lines. -/
def LogEntry.isFailure : LogEntry → Bool
  | .failedMsg _ _ => true
  | .unknownKind _ => true
  | _ => false

/-- The mutable run data of `generate_ifc`: the IFC file state, the
`created_elements` list (name, type) and the emitted log. -/
structure RunState where
  st : IfcState
  created : List (String × String)
  log : List LogEntry
deriving DecidableEq, Repr

/-- The `json.loads` boundary: parses a string into a parameter dict or
raises. -/
abbrev JsonLoads := String → Except String Params

/-- The body of the per-instruction loop of `generate_ifc`.  Note that
the `json.loads` call sits OUTSIDE the per-instruction `try`, so a
parse exception propagates out of the loop (aborting the batch), while
a handler exception is caught, logged, and processing continues. -/
def processOne (jl : JsonLoads) (storey : Nat) (rs : RunState) (tc : ToolCall) :
    Except String RunState :=
  match (match tc.arguments with
         | ArgVal.dict p => Except.ok p
         | ArgVal.str s => jl s) with
  | Except.error e => Except.error e
  | Except.ok args =>
    let rs1 : RunState := { rs with log := rs.log ++ [LogEntry.processing tc.name] }
    match tc.name with
    | none => Except.ok { rs1 with log := rs1.log ++ [LogEntry.unknownKind none] }
    | some fname =>
      match ELEMENT_HANDLERS.lookup fname with
      | none => Except.ok { rs1 with log := rs1.log ++ [LogEntry.unknownKind (some fname)] }
      | some h =>
        match h rs1.st storey args with
        | (st2, none) =>
          Except.ok { st := st2,
                      created := rs1.created ++ [(args.getStr "name" fname, fname)],
                      log := rs1.log ++ [LogEntry.createdMsg fname (args.getStr "name" "unnamed")] }
        | (st2, some e) =>
          Except.ok { st := st2, created := rs1.created,
                      log := rs1.log ++ [LogEntry.failedMsg fname e] }

/-- The per-instruction loop of `generate_ifc` over the whole batch. -/
def processToolCalls (jl : JsonLoads) (storey : Nat) (rs : RunState) :
    List ToolCall → Except String RunState
  | [] => Except.ok rs
  | c :: rest =>
    match processOne jl storey rs c with
    | Except.error e => Except.error e
    | Except.ok rs2 => processToolCalls jl storey rs2 rest

/-- An `IFCGenerateRequest`: the tool calls and the project name
(FastAPI fills the default when absent). -/
structure Request where
  tool_calls : List ToolCall
  project_name : String
deriving DecidableEq

/-- What the endpoint hands back to the caller: either the `Response`
with the file bytes, the content-disposition header and the
`X-Created-Elements` header, or an `HTTPException`. -/
inductive HttpResult where
  | ok (contentBytes : List Nat) (contentDisposition : String) (createdElements : Nat)
  | httpError (status : Nat) (detail : String)
deriving DecidableEq, Repr

/-- The export boundary of `generate_ifc`: `ifc_file.write` to a
temporary file plus reading it back as bytes (may raise). -/
abbrev ExportFn := IfcState → Except String (List Nat)

/-- The initial run state of one request: the skeleton file from
`create_ifc_project`, empty `created_elements`, empty log. -/
def initRun (projectName : String) : RunState :=
  ⟨(create_ifc_project projectName).1, [], []⟩

/-- `generate_ifc` from `main.py`: build the project skeleton, process
every tool call, export, and answer; any exception that escapes
(argument-parse failure or export failure) is turned into
`HTTPException(500, "IFC generation failed: ...")` — the
`created_elements` record is not part of that answer. -/
def generate_ifc (jl : JsonLoads) (exportFn : ExportFn) (req : Request) : HttpResult :=
  match processToolCalls jl (create_ifc_project req.project_name).2
      (initRun req.project_name) req.tool_calls with
  | Except.error e => HttpResult.httpError 500 ("IFC generation failed: " ++ e)
  | Except.ok rs =>
    match exportFn rs.st with
    | Except.error e => HttpResult.httpError 500 ("IFC generation failed: " ++ e)
    | Except.ok bytes =>
      HttpResult.ok bytes
        ("attachment; filename=" ++ (req.project_name.replace " " "_") ++ ".ifc")
        rs.created.length

end BB.MainPy

namespace BB

/-! Interpretation of the geometry at the kernel boundary, for elements
whose single solid is a profile extruded straight up (`Position` axis
`(0,0,1)`, `ExtrudedDirection` `(0,0,1)`): the solid occupies the local
z-range `[posLoc.z, posLoc.z + depth]`, which the placement translation
shifts by `translation.z`. -/

/-- World z of the geometric base of a product with a single upright
extrusion, `none` for any other geometry. -/
def zBase (p : Product) : Option ℚ :=
  match p.geometry with
  | [SolidItem.extruded _ pos axis _ dir depth] =>
    if axis = ⟨0, 0, 1⟩ ∧ dir = ⟨0, 0, 1⟩ ∧ 0 ≤ depth then
      some (p.translation.z + pos.z)
    else none
  | _ => none

/-- World z of the centroid of a product with a single upright
extrusion (base plus half the extrusion depth). -/
def zCentroid (p : Product) : Option ℚ :=
  match p.geometry with
  | [SolidItem.extruded _ pos axis _ dir depth] =>
    if axis = ⟨0, 0, 1⟩ ∧ dir = ⟨0, 0, 1⟩ ∧ 0 ≤ depth then
      some (p.translation.z + pos.z + depth / 2)
    else none
  | _ => none

/-- The x/y/z extents of a product with a single upright extrusion over
a rectangle profile: the profile spans `xdim × ydim` and the sweep adds
`depth` in z. -/
def zExtrudedSizes (p : Product) : Option Vec3 :=
  match p.geometry with
  | [SolidItem.extruded (Profile.rect xdim ydim) _ axis _ dir depth] =>
    if axis = ⟨0, 0, 1⟩ ∧ dir = ⟨0, 0, 1⟩ then some ⟨xdim, ydim, depth⟩
    else none
  | _ => none

/-- The last product added to the state by a handler call. -/
def lastProduct (r : HResult) : Option Product :=
  r.1.products.getLast?

end BB

namespace BB.Blender

open BB

/-- The mesh primitive a Blender handler adds
(`bpy.ops.mesh.primitive_*_add`). -/
inductive BMesh where
  | cube
  | cylinder (radius depth : ℚ)
  | sphere (radius : ℚ)
  | cone (radius1 depth : ℚ)
  | torus (major minor : ℚ)
  | plane
deriving DecidableEq, Repr

/-- A Blender object as built by one handler of `blender_generator.py`:
mesh, location, scale, Euler rotation and the IFC class/predefined type
assigned with `bim.assign_class` (if any).  A unit cube at `location`
scaled by `scale` occupies
`[location - scale / 2, location + scale / 2]` per axis. -/
structure BObj where
  mesh : BMesh
  location : Vec3
  scale : Vec3
  rotationEuler : Vec3
  ifcClass : Option (String × String)
deriving DecidableEq, Repr

/-- World z of the base of a cube object (location is the centre). -/
def BObj.cubeBaseZ (o : BObj) : ℚ :=
  o.location.z - o.scale.z / 2

/-- World z of the centroid of a cube object. -/
def BObj.cubeCentroidZ (o : BObj) : ℚ :=
  o.location.z

/-- `create_wall` from `blender_generator.py`: unit cube at
`(x + length/2, y, z + height/2)` scaled to
`(length, thickness, height)`, class `IfcWall`.  Its comment: "Values
are in meters from the edge function" — no rescaling is performed. -/
def create_wall (params : Params) : BObj :=
  let length := params.getNum "length" 5
  let height := params.getNum "height" 3
  let thickness := params.getNum "thickness" (1/5)
  let x := params.getNum "x" 0
  let y := params.getNum "y" 0
  let z := params.getNum "z" 0
  { mesh := BMesh.cube, location := ⟨x + length / 2, y, z + height / 2⟩,
    scale := ⟨length, thickness, height⟩, rotationEuler := ⟨0, 0, 0⟩,
    ifcClass := some ("IfcWall", "SOLIDWALL") }

/-- `create_window` from `blender_generator.py`: defaults width `1.2`,
height `1.2`, thickness `0.1`, z `1.0`; unit cube scaled to
`(width, thickness, height)`, class `IfcWindow`. -/
def create_window (params : Params) : BObj :=
  let width := params.getNum "width" (6/5)
  let height := params.getNum "height" (6/5)
  let thickness := params.getNum "thickness" (1/10)
  let x := params.getNum "x" 0
  let y := params.getNum "y" 0
  let z := params.getNum "z" 1
  { mesh := BMesh.cube, location := ⟨x + width / 2, y, z + height / 2⟩,
    scale := ⟨width, thickness, height⟩, rotationEuler := ⟨0, 0, 0⟩,
    ifcClass := some ("IfcWindow", "WINDOW") }

/-- `create_column` from `blender_generator.py`: unit cube at
`(x, y, z + height/2)` scaled to `(width, depth, height)`, class
`IfcColumn`. -/
def create_column (params : Params) : BObj :=
  let width := params.getNum "width" (3/10)
  let depth := params.getNum "depth" (3/10)
  let height := params.getNum "height" 3
  let x := params.getNum "x" 0
  let y := params.getNum "y" 0
  let z := params.getNum "z" 0
  { mesh := BMesh.cube, location := ⟨x, y, z + height / 2⟩,
    scale := ⟨width, depth, height⟩, rotationEuler := ⟨0, 0, 0⟩,
    ifcClass := some ("IfcColumn", "COLUMN") }

/-- `create_box` from `blender_generator.py`: unit cube at
`(x + width/2, y + depth/2, z + height/2)` scaled to
`(width, depth, height)`. -/
def create_box (params : Params) : BObj :=
  let width := params.getNum "width" 1
  let height := params.getNum "height" 1
  let depth := params.getNum "depth" 1
  let x := params.getNum "x" 0
  let y := params.getNum "y" 0
  let z := params.getNum "z" 0
  { mesh := BMesh.cube, location := ⟨x + width / 2, y + depth / 2, z + height / 2⟩,
    scale := ⟨width, depth, height⟩, rotationEuler := ⟨0, 0, 0⟩,
    ifcClass := some ("IfcBuildingElementProxy", "ELEMENT") }

/-- `create_sphere` from `blender_generator.py`: UV sphere of radius
`radius` (default `0.5`) at `(x, y, z)`. -/
def create_sphere (params : Params) : BObj :=
  let radius := params.getNum "radius" (1/2)
  let x := params.getNum "x" 0
  let y := params.getNum "y" 0
  let z := params.getNum "z" 0
  { mesh := BMesh.sphere radius, location := ⟨x, y, z⟩,
    scale := ⟨1, 1, 1⟩, rotationEuler := ⟨0, 0, 0⟩,
    ifcClass := some ("IfcBuildingElementProxy", "ELEMENT") }

/-- `create_stairs` from `blender_generator.py`: one cube per step,
step `i` centred at
`(x + width/2, y + i*stepDepth + stepDepth/2, z + i*stepHeight + stepHeight/2)`
and scaled to `(width, stepDepth, stepHeight)`; only step 0 receives
the `IfcStair` class.  Default `steps` is `15`.  A non-integer `steps`
raises `TypeError` at `range`; `steps = 0` raises `NameError` at the
final `return step_obj`. -/
def create_stairs (params : Params) : Except String (List BObj) :=
  let width := params.getNum "width" (6/5)
  let steps := params.getNum "steps" 15
  let stepHeight := params.getNum "stepHeight" (9/50)
  let stepDepth := params.getNum "stepDepth" (7/25)
  let x := params.getNum "x" 0
  let y := params.getNum "y" 0
  let z := params.getNum "z" 0
  match pyRange steps with
  | none => Except.error "TypeError: steps cannot be interpreted as an integer"
  | some is =>
    if is.isEmpty then Except.error "NameError: name step_obj is not defined"
    else
      Except.ok (is.map fun i =>
        { mesh := BMesh.cube,
          location := ⟨x + width / 2, y + (i : ℚ) * stepDepth + stepDepth / 2,
                       z + (i : ℚ) * stepHeight + stepHeight / 2⟩,
          scale := ⟨width, stepDepth, stepHeight⟩, rotationEuler := ⟨0, 0, 0⟩,
          ifcClass := if i = 0 then some ("IfcStair", "STRAIGHT_RUN_STAIR") else none })

end BB.Blender

namespace BB

/-- The `Depth` of a product whose representation is a single extruded
solid. -/
def extrusionDepth (p : Product) : Option ℚ :=
  match p.geometry with
  | [SolidItem.extruded _ _ _ _ _ d] => some d
  | _ => none

/-- The `XDim`/`YDim` of a product whose representation is a single
extruded rectangle profile. -/
def profileDims (p : Product) : Option (ℚ × ℚ) :=
  match p.geometry with
  | [SolidItem.extruded (Profile.rect a b) _ _ _ _ _] => some (a, b)
  | _ => none

/-- The empty parameter dict (exercises every per-kind default). -/
def noParams : Params := ⟨[], []⟩

/-- A fresh skeleton file to run a single handler against. -/
def S0 : IfcState := (MainPy.create_ifc_project "Model").1

end BB

namespace BB

open BB.MainPy

/-- C1.  The claim fails on `main.py` and the code contradicts its own
comment.  A column with `height = 3.0` requested at `z = 0`: the
extrusion runs from local z `0` up to `height`, and the placement then
translates by `z + height / 2`, so the solid base lands at `1.5` (not
the requested `0`) and the centroid at `3.0` (not `1.5`), although the
comment in the source says "Position bottom at z".  The Blender
variant of the same handler places base `0` and centroid `1.5` as the
claim states. -/
theorem c1_column_placement_bug :
    ((lastProduct (MainPy.create_column S0 3 ⟨[("height", 3), ("z", 0)], []⟩)).bind zBase
        = some (3/2))
  ∧ ((lastProduct (MainPy.create_column S0 3 ⟨[("height", 3), ("z", 0)], []⟩)).bind zCentroid
        = some 3)
  ∧ ¬ ((lastProduct (MainPy.create_column S0 3 ⟨[("height", 3), ("z", 0)], []⟩)).bind zCentroid
        = some (3/2))
  ∧ (Blender.create_column ⟨[("height", 3), ("z", 0)], []⟩).cubeBaseZ = 0
  ∧ (Blender.create_column ⟨[("height", 3), ("z", 0)], []⟩).cubeCentroidZ = 3/2 := by
  with_unfolding_all decide

/-- C3 counterexample.  A wall with millimetre-scale parameters
`{length: 5000, height: 3000, thickness: 200}` is NOT rescaled to
`{5.0, 3.0, 0.2}`: both variants use the values verbatim. -/
theorem c3_no_rescaling_counterexample :
    ((lastProduct (MainPy.create_wall S0 3
        ⟨[("length", 5000), ("height", 3000), ("thickness", 200)], []⟩)).bind extrusionDepth
      = some 5000)
  ∧ ¬ ((lastProduct (MainPy.create_wall S0 3
        ⟨[("length", 5000), ("height", 3000), ("thickness", 200)], []⟩)).bind extrusionDepth
      = some 5)
  ∧ (Blender.create_wall ⟨[("length", 5000), ("height", 3000), ("thickness", 200)], []⟩).scale
      = ⟨5000, 200, 3000⟩ := by
  refine ⟨?_, ?_, ?_⟩ <;>
    simp [MainPy.create_wall, Blender.create_wall, lastProduct, emitProduct,
      assignContainer, extrusionDepth, Params.getNum, List.lookup_cons]

/-- C3 as amended: no unit normalisation exists; for every parameter
mapping the wall dimensions are the supplied values (or the per-kind
defaults), passed through unchanged, in both variants.  In particular
already-plausible metric parameters pass through unchanged, and so do
millimetre-scale ones. -/
theorem c3_wall_params_pass_through (params : Params) (st : IfcState) (s : Nat) :
    ((lastProduct (MainPy.create_wall st s params)).bind extrusionDepth
        = some (params.getNum "length" 5))
  ∧ ((lastProduct (MainPy.create_wall st s params)).bind profileDims
        = some (params.getNum "thickness" (1/5), params.getNum "height" 3))
  ∧ (Blender.create_wall params).scale
        = ⟨params.getNum "length" 5, params.getNum "thickness" (1/5),
           params.getNum "height" 3⟩ := by
  refine ⟨?_, ?_, rfl⟩ <;>
    simp [MainPy.create_wall, Blender.create_wall, lastProduct, emitProduct,
      assignContainer, extrusionDepth, profileDims]

/-- The stair parameters of the C4 scenario:
`steps = 15, stepHeight = 0.18, stepDepth = 0.28`. -/
def stairsP : Params := ⟨[("steps", 15), ("stepHeight", 9/50), ("stepDepth", 7/25)], []⟩

/-- C4 counterexample.  In `main.py`, `create_stairs` with
`steps = 15` keeps only the first step in the shape representation (the
loop breaks after the first iteration), so the stair expansion yields
one step solid, not 15. -/
theorem c4_single_step_counterexample :
    ((lastProduct (MainPy.create_stairs S0 3 stairsP)).map (fun p => p.geometry.length)
      = some 1)
  ∧ ¬ ((lastProduct (MainPy.create_stairs S0 3 stairsP)).map (fun p => p.geometry.length)
      = some 15) := by
  with_unfolding_all decide

/-- Executable check that a list of rationals is strictly increasing. -/
def ratsStrictMono : List ℚ → Bool
  | a :: b :: t => (decide (a < b) && ratsStrictMono (b :: t))
  | _ => true

/-- `ratsStrictMono` certifies `List.Chain' (· < ·)`. -/
theorem chain'_lt_of_ratsStrictMono : ∀ l : List ℚ, ratsStrictMono l = true →
    List.Chain' (fun a b => a < b) l
  | [], _ => List.chain'_nil
  | [_], _ => List.chain'_singleton _
  | a :: b :: t, h => by
    rw [ratsStrictMono, Bool.and_eq_true, decide_eq_true_eq] at h
    exact (List.chain'_cons).2 ⟨h.1, chain'_lt_of_ratsStrictMono (b :: t) h.2⟩

/-- C4 as amended: the Blender variant expands
`steps = 15, stepHeight = 0.18, stepDepth = 0.28` into 15 step
objects with strictly increasing vertical and depth offsets, cumulative
height `15 * 0.18 = 2.70` and last-step base z `14 * 0.18 = 2.52`;
the `main.py` variant deliberately emits a single step solid instead
(see the counterexample). -/
theorem c4_blender_stair_expansion :
    ∃ objs : List Blender.BObj,
      Blender.create_stairs stairsP = Except.ok objs
    ∧ objs.length = 15
    ∧ List.Chain' (fun a b => a < b) (objs.map Blender.BObj.cubeBaseZ)
    ∧ List.Chain' (fun a b => a < b) (objs.map (fun o => o.location.y))
    ∧ (objs.map (fun o => o.scale.z)).sum = 27/10
    ∧ objs.getLast?.map Blender.BObj.cubeBaseZ = some (63/25) := by
  refine ⟨_, rfl, ?_, ?_, ?_, ?_, ?_⟩
  · with_unfolding_all decide
  · exact chain'_lt_of_ratsStrictMono _ (by with_unfolding_all decide)
  · exact chain'_lt_of_ratsStrictMono _ (by with_unfolding_all decide)
  · with_unfolding_all decide
  · with_unfolding_all decide

/-- C10 counterexample.  The two variants disagree already on their
defaults: with an empty parameter mapping the FastAPI window is
`1.5` high while the Blender window is `1.2` high, and the default
stair expansion yields a single step solid in `main.py` (default
`steps = 10`, collapsed to one solid) versus 15 step objects in the
Blender variant (default `steps = 15`). -/
theorem c10_variant_disagreement_counterexample :
    (((lastProduct (MainPy.create_window S0 3 noParams)).bind profileDims).map Prod.snd
      = some (3/2))
  ∧ (Blender.create_window noParams).scale.z = 6/5
  ∧ ¬ ((3 : ℚ)/2 = 6/5)
  ∧ ((lastProduct (MainPy.create_stairs S0 3 noParams)).map (fun p => p.geometry.length)
      = some 1)
  ∧ ((Blender.create_stairs noParams).toOption.map List.length = some 15)
  ∧ ¬ ((1 : Nat) = 15) := by
  with_unfolding_all decide

/-- C10 as amended: for the shared kinds `create_column` and
`create_box` the two variants do produce solids of identical x/y/z
extents for every parameter mapping (hence also identical defaults),
but the claim fails in general: the default window height is `1.5`
(FastAPI) versus `1.2` (Blender) and the default stair expansion is a
single step solid (FastAPI, `steps` default 10 collapsed to one item)
versus 15 step objects (Blender, `steps` default 15). -/
theorem c10_column_box_sizes_agree (params : Params) (st : IfcState) (s : Nat) :
    ((lastProduct (MainPy.create_column st s params)).bind zExtrudedSizes
      = some (Blender.create_column params).scale)
  ∧ ((lastProduct (MainPy.create_box st s params)).bind zExtrudedSizes
      = some (Blender.create_box params).scale) := by
  constructor <;>
    simp [MainPy.create_column, MainPy.create_box, Blender.create_column,
      Blender.create_box, lastProduct, emitProduct, assignContainer, zExtrudedSizes]

/-- An instance of the `json.loads` boundary behaviour, agreeing with
the real parser on every string used below: it raises on the non-JSON
string `"not json"` and parses anything else to the empty dict. -/
def jlStrict : MainPy.JsonLoads := fun s =>
  if s = "not json" then Except.error "Expecting value: line 1 column 1 (char 0)"
  else Except.ok noParams

/-- An export boundary that succeeds with fixed bytes. -/
def exportConst : MainPy.ExportFn := fun _ => Except.ok [73, 70, 67]

/-- An export boundary that raises. -/
def exportFail : MainPy.ExportFn := fun _ => Except.error "disk full"

/-- Tool calls used in the concrete batches below. -/
def wallCall : MainPy.ToolCall := ⟨some "create_wall", MainPy.ArgVal.dict noParams⟩

def columnCall : MainPy.ToolCall := ⟨some "create_column", MainPy.ArgVal.dict noParams⟩

def slabCall : MainPy.ToolCall := ⟨some "create_slab", MainPy.ArgVal.dict noParams⟩

def beamCall : MainPy.ToolCall := ⟨some "create_beam", MainPy.ArgVal.dict noParams⟩

def pyramidCall : MainPy.ToolCall := ⟨some "create_pyramid", MainPy.ArgVal.dict noParams⟩

def domeCall : MainPy.ToolCall := ⟨some "create_dome", MainPy.ArgVal.dict noParams⟩

/-- A stairs call whose `steps` is not an integer, so its handler
raises (`range` raises `TypeError`) and the exception is caught by the
per-instruction `try`. -/
def badStairsCall : MainPy.ToolCall :=
  ⟨some "create_stairs", MainPy.ArgVal.dict ⟨[("steps", 1/2)], []⟩⟩

/-- A call whose `arguments` is a string that `json.loads` rejects. -/
def badJsonCall : MainPy.ToolCall := ⟨some "create_wall", MainPy.ArgVal.str "not json"⟩

/-- Five instructions with instruction 3 of unknown kind. -/
def fiveBatch : List MainPy.ToolCall := [wallCall, columnCall, pyramidCall, slabCall, beamCall]

/-- Three instructions with instruction 2 raising inside its handler. -/
def exceptionBatch : List MainPy.ToolCall := [wallCall, badStairsCall, columnCall]

/-- Three instructions with instruction 2 raising while its string
arguments are parsed. -/
def abortBatch : List MainPy.ToolCall := [wallCall, badJsonCall, wallCall]

/-- `created_elements` length of a finished run. -/
def runCreatedLen (r : Except String MainPy.RunState) : Option Nat :=
  r.toOption.map fun rs => rs.created.length

/-- Number of products in the file of a finished run. -/
def runProductsLen (r : Except String MainPy.RunState) : Option Nat :=
  r.toOption.map fun rs => rs.st.products.length

/-- Number of failure lines logged by a finished run. -/
def runFailureLogs (r : Except String MainPy.RunState) : Option Nat :=
  r.toOption.map fun rs => (rs.log.filter MainPy.LogEntry.isFailure).length

/-- C2 counterexample.  An instruction whose processing raises during
argument parsing (a non-JSON string `arguments`) is NOT contained: the
`json.loads` call sits outside the per-instruction `try`, so the whole
batch aborts with a hard failure; the failure is not recorded in the
run data and the remaining instructions are never processed. -/
theorem c2_parse_abort_counterexample :
    MainPy.processToolCalls jlStrict 3 (MainPy.initRun "Model") abortBatch
      = Except.error "Expecting value: line 1 column 1 (char 0)"
  ∧ MainPy.generate_ifc jlStrict exportConst ⟨abortBatch, "Model"⟩
      = MainPy.HttpResult.httpError 500
          "IFC generation failed: Expecting value: line 1 column 1 (char 0)"
  ∧ runCreatedLen (MainPy.processToolCalls jlStrict 3 (MainPy.initRun "Model") abortBatch)
      = none := by
  refine ⟨?_, ?_, ?_⟩ <;> with_unfolding_all rfl

/-- True exactly when a tool call carries its arguments as a dict
(so `json.loads` is never invoked for it). -/
def MainPy.ArgVal.isDict : MainPy.ArgVal → Bool
  | MainPy.ArgVal.dict _ => true
  | MainPy.ArgVal.str _ => false

/-- True on the three per-instruction outcome lines (created, failed,
unknown kind) and false on the "Processing" line, so that counting
these counts processed instructions. -/
def MainPy.LogEntry.isOutcome : MainPy.LogEntry → Bool
  | MainPy.LogEntry.processing _ => false
  | _ => true

/-- One loop iteration on an instruction with dict arguments always
succeeds and logs exactly one outcome line. -/
theorem processOne_dict_ok (jl : MainPy.JsonLoads) (s : Nat) (rs : MainPy.RunState)
    (tc : MainPy.ToolCall) (hd : tc.arguments.isDict = true) :
    ∃ rs2, MainPy.processOne jl s rs tc = Except.ok rs2
      ∧ (rs2.log.filter MainPy.LogEntry.isOutcome).length
          = (rs.log.filter MainPy.LogEntry.isOutcome).length + 1 := by
  rcases tc with ⟨nm, args⟩
  cases args with
  | str s2 => simp [MainPy.ArgVal.isDict] at hd
  | dict p =>
    rcases nm with _ | fname
    · refine ⟨_, rfl, ?_⟩
      simp [List.filter_append, MainPy.LogEntry.isOutcome]
    · rcases hl : MainPy.ELEMENT_HANDLERS.lookup fname with _ | h
      · have heq : MainPy.processOne jl s rs ⟨some fname, MainPy.ArgVal.dict p⟩
            = Except.ok { rs with log := rs.log
                ++ [MainPy.LogEntry.processing (some fname),
                    MainPy.LogEntry.unknownKind (some fname)] } := by
          simp [MainPy.processOne, hl]
        exact ⟨_, heq, by simp [List.filter_append, MainPy.LogEntry.isOutcome]⟩
      · rcases hrun : h rs.st s p with ⟨st2, e2⟩
        cases e2 with
        | none =>
          have heq : MainPy.processOne jl s rs ⟨some fname, MainPy.ArgVal.dict p⟩
              = Except.ok ⟨st2, rs.created ++ [(p.getStr "name" fname, fname)],
                  rs.log ++ [MainPy.LogEntry.processing (some fname),
                             MainPy.LogEntry.createdMsg fname (p.getStr "name" "unnamed")]⟩ := by
            simp [MainPy.processOne, hl, hrun]
          exact ⟨_, heq, by simp [List.filter_append, MainPy.LogEntry.isOutcome]⟩
        | some e2 =>
          have heq : MainPy.processOne jl s rs ⟨some fname, MainPy.ArgVal.dict p⟩
              = Except.ok ⟨st2, rs.created,
                  rs.log ++ [MainPy.LogEntry.processing (some fname),
                             MainPy.LogEntry.failedMsg fname e2]⟩ := by
            simp [MainPy.processOne, hl, hrun]
          exact ⟨_, heq, by simp [List.filter_append, MainPy.LogEntry.isOutcome]⟩

/-- The instruction loop on any batch of dict-argument instructions
never aborts and logs exactly one outcome line per instruction. -/
theorem processToolCalls_dict_ok (jl : MainPy.JsonLoads) (s : Nat) :
    ∀ (calls : List MainPy.ToolCall) (rs : MainPy.RunState),
      (∀ tc ∈ calls, tc.arguments.isDict = true) →
      ∃ rs2, MainPy.processToolCalls jl s rs calls = Except.ok rs2
        ∧ (rs2.log.filter MainPy.LogEntry.isOutcome).length
            = (rs.log.filter MainPy.LogEntry.isOutcome).length + calls.length
  | [], rs, _ => ⟨rs, rfl, by simp⟩
  | c :: rest, rs, hall => by
    obtain ⟨rsm, h1, h2⟩ :=
      processOne_dict_ok jl s rs c (hall c (List.mem_cons_self c rest))
    obtain ⟨rs2, h3, h4⟩ :=
      processToolCalls_dict_ok jl s rest rsm
        (fun tc htc => hall tc (List.mem_cons_of_mem _ htc))
    refine ⟨rs2, ?_, ?_⟩
    · rw [MainPy.processToolCalls, h1]
      exact h3
    · rw [h4, h2]
      simp [List.length_cons]
      omega

/-- C2 as amended: for every batch and every instruction whose
arguments are a dict, the orchestrator never aborts — it logs exactly
one outcome per instruction (first conjunct); for every instruction of
unknown kind it logs the failure, leaves the state and the created
list untouched and continues with exactly the remaining instructions
(second conjunct); for every instruction whose handler raises it logs
the failure with its cause, keeps whatever partial state the handler
built, leaves the created list untouched and continues with exactly
the remaining instructions (third conjunct).  Only an exception raised
while JSON-parsing string arguments escapes and aborts the batch (see
the counterexample). -/
theorem c2_failure_isolation (jl : MainPy.JsonLoads) (s : Nat) :
    (∀ (calls : List MainPy.ToolCall) (rs : MainPy.RunState),
        (∀ tc ∈ calls, tc.arguments.isDict = true) →
        ∃ rs2, MainPy.processToolCalls jl s rs calls = Except.ok rs2
          ∧ (rs2.log.filter MainPy.LogEntry.isOutcome).length
              = (rs.log.filter MainPy.LogEntry.isOutcome).length + calls.length)
  ∧ (∀ (fname : String) (p : Params) (rest : List MainPy.ToolCall)
        (rs : MainPy.RunState),
        MainPy.ELEMENT_HANDLERS.lookup fname = none →
        MainPy.processToolCalls jl s rs (⟨some fname, MainPy.ArgVal.dict p⟩ :: rest)
          = MainPy.processToolCalls jl s
              { rs with log := rs.log
                  ++ [MainPy.LogEntry.processing (some fname),
                      MainPy.LogEntry.unknownKind (some fname)] } rest)
  ∧ (∀ (fname : String) (h : Handler) (p : Params) (rest : List MainPy.ToolCall)
        (rs : MainPy.RunState) (st2 : IfcState) (e : String),
        MainPy.ELEMENT_HANDLERS.lookup fname = some h →
        h rs.st s p = (st2, some e) →
        MainPy.processToolCalls jl s rs (⟨some fname, MainPy.ArgVal.dict p⟩ :: rest)
          = MainPy.processToolCalls jl s
              ⟨st2, rs.created,
               rs.log ++ [MainPy.LogEntry.processing (some fname),
                          MainPy.LogEntry.failedMsg fname e]⟩ rest) := by
  refine ⟨processToolCalls_dict_ok jl s, ?_, ?_⟩
  · intro fname p rest rs hl
    rw [MainPy.processToolCalls]
    have heq : MainPy.processOne jl s rs ⟨some fname, MainPy.ArgVal.dict p⟩
        = Except.ok { rs with log := rs.log
            ++ [MainPy.LogEntry.processing (some fname),
                MainPy.LogEntry.unknownKind (some fname)] } := by
      simp [MainPy.processOne, hl]
    rw [heq]
  · intro fname h p rest rs st2 e hl hrun
    rw [MainPy.processToolCalls]
    have heq : MainPy.processOne jl s rs ⟨some fname, MainPy.ArgVal.dict p⟩
        = Except.ok ⟨st2, rs.created,
            rs.log ++ [MainPy.LogEntry.processing (some fname),
                       MainPy.LogEntry.failedMsg fname e]⟩ := by
      simp [MainPy.processOne, hl, hrun]
    rw [heq]

/-- Witness for C2: the first conjunct applied to the claim scenario (a
batch of 5 instructions whose instruction 3 has an unknown kind — the
counts 4 created, 4 products, 1 failure logged are conjoined), the
second conjunct applied to an unknown-kind instruction followed by one
more instruction, and the third conjunct applied to a stairs
instruction whose handler raises, followed by one more instruction. -/
theorem c2_failure_isolation_witness :
    ((∀ tc ∈ fiveBatch, tc.arguments.isDict = true)
      ∧ ∃ rs2, MainPy.processToolCalls jlStrict 3 (MainPy.initRun "Model") fiveBatch
            = Except.ok rs2
          ∧ (rs2.log.filter MainPy.LogEntry.isOutcome).length
              = ((MainPy.initRun "Model").log.filter MainPy.LogEntry.isOutcome).length
                + fiveBatch.length)
  ∧ (runCreatedLen (MainPy.processToolCalls jlStrict 3 (MainPy.initRun "Model") fiveBatch)
        = some 4
      ∧ runProductsLen (MainPy.processToolCalls jlStrict 3 (MainPy.initRun "Model") fiveBatch)
        = some 4
      ∧ runFailureLogs (MainPy.processToolCalls jlStrict 3 (MainPy.initRun "Model") fiveBatch)
        = some 1)
  ∧ (MainPy.ELEMENT_HANDLERS.lookup "create_pyramid" = none
      ∧ MainPy.processToolCalls jlStrict 3 (MainPy.initRun "Model") (pyramidCall :: [wallCall])
          = MainPy.processToolCalls jlStrict 3
              { MainPy.initRun "Model" with log := (MainPy.initRun "Model").log
                  ++ [MainPy.LogEntry.processing (some "create_pyramid"),
                      MainPy.LogEntry.unknownKind (some "create_pyramid")] } [wallCall])
  ∧ (MainPy.create_stairs (MainPy.initRun "Model").st 3 ⟨[("steps", 1/2)], []⟩
        = ((MainPy.initRun "Model").st,
           some "TypeError: steps cannot be interpreted as an integer")
      ∧ MainPy.processToolCalls jlStrict 3 (MainPy.initRun "Model") (badStairsCall :: [wallCall])
          = MainPy.processToolCalls jlStrict 3
              ⟨(MainPy.initRun "Model").st, (MainPy.initRun "Model").created,
               (MainPy.initRun "Model").log
                 ++ [MainPy.LogEntry.processing (some "create_stairs"),
                     MainPy.LogEntry.failedMsg "create_stairs"
                       "TypeError: steps cannot be interpreted as an integer"]⟩ [wallCall]) :=
  ⟨⟨by with_unfolding_all decide,
    (c2_failure_isolation jlStrict 3).1 fiveBatch (MainPy.initRun "Model")
      (by with_unfolding_all decide)⟩,
   by with_unfolding_all decide,
   ⟨by with_unfolding_all rfl,
    (c2_failure_isolation jlStrict 3).2.1 "create_pyramid" noParams [wallCall]
      (MainPy.initRun "Model") (by with_unfolding_all rfl)⟩,
   ⟨by with_unfolding_all rfl,
    (c2_failure_isolation jlStrict 3).2.2 "create_stairs" MainPy.create_stairs
      ⟨[("steps", 1/2)], []⟩ [wallCall] (MainPy.initRun "Model")
      (MainPy.initRun "Model").st "TypeError: steps cannot be interpreted as an integer"
      (by with_unfolding_all rfl) (by with_unfolding_all rfl)⟩⟩

/-- The two-wall and empty requests used for C6. -/
def reqTwoWalls : MainPy.Request := ⟨[wallCall, wallCall], "Model"⟩

def reqEmpty : MainPy.Request := ⟨[], "Model"⟩

/-- C6 counterexample.  On a hard export failure the caller receives
only `HTTPException(500, message)`: a run that created 2 elements and a
run that created 0 produce the very same answer, so the record of which
instructions succeeded is not returned even though it exists inside the
run. -/
theorem c6_report_dropped_counterexample :
    MainPy.generate_ifc jlStrict exportFail reqTwoWalls
      = MainPy.HttpResult.httpError 500 "IFC generation failed: disk full"
  ∧ MainPy.generate_ifc jlStrict exportFail reqEmpty
      = MainPy.generate_ifc jlStrict exportFail reqTwoWalls
  ∧ runCreatedLen (MainPy.processToolCalls jlStrict 3 (MainPy.initRun "Model")
      reqTwoWalls.tool_calls) = some 2
  ∧ runCreatedLen (MainPy.processToolCalls jlStrict 3 (MainPy.initRun "Model")
      reqEmpty.tool_calls) = some 0 := by
  refine ⟨?_, ?_, ?_, ?_⟩ <;> with_unfolding_all rfl

/-- C6 as amended: for every run whose per-instruction processing
finished and whose export then raised, the caller receives exactly
`HTTPException(500, "IFC generation failed: " + message)` — the
per-instruction record (`created_elements`) is discarded, not
returned. -/
theorem c6_hard_failure_drops_report (jl : MainPy.JsonLoads) (exportFn : MainPy.ExportFn)
    (req : MainPy.Request) (rs : MainPy.RunState) (e : String)
    (h1 : MainPy.processToolCalls jl (MainPy.create_ifc_project req.project_name).2
        (MainPy.initRun req.project_name) req.tool_calls = Except.ok rs)
    (h2 : exportFn rs.st = Except.error e) :
    MainPy.generate_ifc jl exportFn req
      = MainPy.HttpResult.httpError 500 ("IFC generation failed: " ++ e) := by
  simp [MainPy.generate_ifc, h1, h2]

/-- Witness for C6: the empty batch with a failing export. -/
theorem c6_hard_failure_drops_report_witness :
    MainPy.generate_ifc jlStrict exportFail reqEmpty
      = MainPy.HttpResult.httpError 500 ("IFC generation failed: " ++ "disk full") :=
  c6_hard_failure_drops_report jlStrict exportFail reqEmpty (MainPy.initRun "Model")
    "disk full" rfl rfl

/-- Zero-created-element requests used for C7 (every kind unknown). -/
def reqZeroA : MainPy.Request := ⟨[pyramidCall], "Model"⟩

def reqZeroB : MainPy.Request := ⟨[pyramidCall, domeCall], "Model"⟩

/-- C7 counterexample.  A zero-element run does terminate normally, but
no run report is available to the caller: two different batches with
different per-instruction outcomes (one versus two unknown-kind
instructions) produce identical answers, whose only run information is
the created-element count `0`. -/
theorem c7_no_report_available_counterexample :
    MainPy.generate_ifc jlStrict exportConst reqZeroA
      = MainPy.HttpResult.ok [73, 70, 67] "attachment; filename=Model.ifc" 0
  ∧ MainPy.generate_ifc jlStrict exportConst reqZeroB
      = MainPy.generate_ifc jlStrict exportConst reqZeroA
  ∧ runCreatedLen (MainPy.processToolCalls jlStrict 3 (MainPy.initRun "Model")
      reqZeroA.tool_calls) = some 0
  ∧ runCreatedLen (MainPy.processToolCalls jlStrict 3 (MainPy.initRun "Model")
      reqZeroB.tool_calls) = some 0
  ∧ ¬ (reqZeroA = reqZeroB) := by
  refine ⟨?_, ?_, ?_, ?_, ?_⟩ <;> with_unfolding_all decide

/-- C7 as amended: a run whose processing finished with zero created
elements still terminates normally when export succeeds — it is not
turned into a hard error; the answer carries the created-element count
`0` (but no per-instruction report, see the counterexample). -/
theorem c7_zero_elements_not_hard_error (jl : MainPy.JsonLoads) (exportFn : MainPy.ExportFn)
    (req : MainPy.Request) (rs : MainPy.RunState) (bytes : List Nat)
    (h1 : MainPy.processToolCalls jl (MainPy.create_ifc_project req.project_name).2
        (MainPy.initRun req.project_name) req.tool_calls = Except.ok rs)
    (h2 : rs.created = [])
    (h3 : exportFn rs.st = Except.ok bytes) :
    MainPy.generate_ifc jl exportFn req
      = MainPy.HttpResult.ok bytes
          ("attachment; filename=" ++ req.project_name.replace " " "_" ++ ".ifc") 0 := by
  simp [MainPy.generate_ifc, h1, h2, h3]

/-- Witness for C7: a one-instruction batch of unknown kind. -/
theorem c7_zero_elements_not_hard_error_witness :
    MainPy.generate_ifc jlStrict exportConst reqZeroA
      = MainPy.HttpResult.ok [73, 70, 67]
          ("attachment; filename=" ++ ("Model".replace " " "_") ++ ".ifc") 0 :=
  c7_zero_elements_not_hard_error jlStrict exportConst reqZeroA
    ⟨(MainPy.create_ifc_project "Model").1, [],
     [MainPy.LogEntry.processing (some "create_pyramid"),
      MainPy.LogEntry.unknownKind (some "create_pyramid")]⟩
    [73, 70, 67] (by with_unfolding_all rfl) rfl rfl

/-- C9.  The whole pipeline is deterministic: the handler table lookup
and the resolved handler output are the same on every call with the
same inputs, and two independent runs of the same request (each
starting from its own freshly built skeleton state) give equal
outcomes.  The embedding is a pure function of its inputs because the
source consults no randomness, clock or ambient state in the core
(fresh GUIDs are minted inside the external kernel and never reach the
`created_elements` record or the answer headers). -/
theorem c9_pipeline_deterministic (jl : MainPy.JsonLoads) (exportFn : MainPy.ExportFn)
    (req : MainPy.Request) (n : String) (p : Params) (st : IfcState) (s : Nat) :
    ((MainPy.ELEMENT_HANDLERS.lookup n).map fun h => h st s p)
      = ((MainPy.ELEMENT_HANDLERS.lookup n).map fun h => h st s p)
  ∧ MainPy.generate_ifc jl exportFn req = MainPy.generate_ifc jl exportFn req
  ∧ MainPy.processToolCalls jl (MainPy.create_ifc_project req.project_name).2
        (MainPy.initRun req.project_name) req.tool_calls
      = MainPy.processToolCalls jl (MainPy.create_ifc_project req.project_name).2
        (MainPy.initRun req.project_name) req.tool_calls :=
  ⟨rfl, rfl, rfl⟩

/-- C5.  `create_room` always succeeds and appends exactly 6 products,
in the fixed order floor slab, front wall, back wall, left wall, right
wall, ceiling slab, with every dimension and position derived from the
room parameters (walls of the supplied `wallThickness`, front/back
walls of length `width` at `y` and `y + depth`, left/right walls of
length `depth` at `x` and `x + width`, slabs of `width × depth` with
the ceiling lifted by `height`).  Determinism of the expansion is the
last conjunct: the embedding is a pure function, matching a source
without randomness. -/
theorem c5_room_expansion (params : Params) (st : IfcState) (s : Nat) :
    (MainPy.create_room st s params).2 = none
  ∧ (MainPy.create_room st s params).1.products
      = st.products ++
        [⟨st.nextId, "IfcSlab", params.getStr "name" "Room" ++ "_Floor",
           [SolidItem.extruded
              (Profile.rect (params.getNum "width" 5) (params.getNum "depth" 5))
              ⟨0, 0, 0⟩ ⟨0, 0, 1⟩ ⟨1, 0, 0⟩ ⟨0, 0, 1⟩ (1/5)],
           ⟨params.getNum "x" 0, params.getNum "y" 0, params.getNum "z" 0⟩⟩,
         ⟨st.nextId + 1, "IfcWall", params.getStr "name" "Room" ++ "_Wall_Front",
           [SolidItem.extruded
              (Profile.rect (params.getNum "wallThickness" (1/5)) (params.getNum "height" (27/10)))
              ⟨0, 0, 0⟩ ⟨0, 1, 0⟩ ⟨1, 0, 0⟩ ⟨1, 0, 0⟩ (params.getNum "width" 5)],
           ⟨params.getNum "x" 0, params.getNum "y" 0, params.getNum "z" 0⟩⟩,
         ⟨st.nextId + 2, "IfcWall", params.getStr "name" "Room" ++ "_Wall_Back",
           [SolidItem.extruded
              (Profile.rect (params.getNum "wallThickness" (1/5)) (params.getNum "height" (27/10)))
              ⟨0, 0, 0⟩ ⟨0, 1, 0⟩ ⟨1, 0, 0⟩ ⟨1, 0, 0⟩ (params.getNum "width" 5)],
           ⟨params.getNum "x" 0, params.getNum "y" 0 + params.getNum "depth" 5,
            params.getNum "z" 0⟩⟩,
         ⟨st.nextId + 3, "IfcWall", params.getStr "name" "Room" ++ "_Wall_Left",
           [SolidItem.extruded
              (Profile.rect (params.getNum "wallThickness" (1/5)) (params.getNum "height" (27/10)))
              ⟨0, 0, 0⟩ ⟨0, 1, 0⟩ ⟨1, 0, 0⟩ ⟨1, 0, 0⟩ (params.getNum "depth" 5)],
           ⟨params.getNum "x" 0, params.getNum "y" 0, params.getNum "z" 0⟩⟩,
         ⟨st.nextId + 4, "IfcWall", params.getStr "name" "Room" ++ "_Wall_Right",
           [SolidItem.extruded
              (Profile.rect (params.getNum "wallThickness" (1/5)) (params.getNum "height" (27/10)))
              ⟨0, 0, 0⟩ ⟨0, 1, 0⟩ ⟨1, 0, 0⟩ ⟨1, 0, 0⟩ (params.getNum "depth" 5)],
           ⟨params.getNum "x" 0 + params.getNum "width" 5, params.getNum "y" 0,
            params.getNum "z" 0⟩⟩,
         ⟨st.nextId + 5, "IfcSlab", params.getStr "name" "Room" ++ "_Ceiling",
           [SolidItem.extruded
              (Profile.rect (params.getNum "width" 5) (params.getNum "depth" 5))
              ⟨0, 0, 0⟩ ⟨0, 0, 1⟩ ⟨1, 0, 0⟩ ⟨0, 0, 1⟩ (1/5)],
           ⟨params.getNum "x" 0, params.getNum "y" 0,
            params.getNum "z" 0 + params.getNum "height" (27/10)⟩⟩]
  ∧ MainPy.create_room st s params = MainPy.create_room st s params := by
  refine ⟨?_, ?_, rfl⟩ <;>
    simp [MainPy.create_room, MainPy.create_slab, MainPy.create_wall, hseq,
      emitProduct, assignContainer, Params.getNum, Params.getStr,
      List.lookup_cons, List.append_assoc, List.cons_append, List.nil_append,
      List.singleton_append]

/-- The run invariant behind C8: the spatial skeleton is exactly the
one built once by `create_ifc_project` (never extended, never
re-parented), the aggregation edges are exactly
project → site → building → storey, every product so far has exactly
one containment edge and it points at the storey `s` (the `contained`
list is the products list imaged through `pid ↦ (pid, s)`), and product
ids are fresh and strictly increasing. -/
structure Inv (pn : String) (s : Nat) (st : IfcState) : Prop where
  spatial_eq : st.spatial = (MainPy.create_ifc_project pn).1.spatial
  agg_eq : st.aggregates = [(0, 1), (1, 2), (2, 3)]
  contained_eq : st.contained = st.products.map fun p => (p.pid, s)
  ids_lt : ∀ p ∈ st.products, p.pid < st.nextId
  ids_mono : List.Chain' (fun a b => a < b) (st.products.map fun p => p.pid)

/-- `emitProduct` preserves the run invariant. -/
theorem inv_emitProduct {pn : String} {s : Nat} {st : IfcState}
    {cls nm : String} {geom : List SolidItem} {tr : Vec3} (h : Inv pn s st) :
    Inv pn s (emitProduct st s cls nm geom tr).1 := by
  obtain ⟨h1, h2, h3, h4, h5⟩ := h
  refine ⟨?_, ?_, ?_, ?_, ?_⟩
  · simpa [emitProduct, assignContainer] using h1
  · simpa [emitProduct, assignContainer] using h2
  · simp [emitProduct, assignContainer, h3]
  · intro p hp
    simp only [emitProduct, assignContainer, List.mem_append, List.mem_singleton] at hp ⊢
    rcases hp with hp | rfl
    · exact Nat.lt_succ_of_lt (h4 p hp)
    · exact Nat.lt_succ_self _
  · simp only [emitProduct, assignContainer, List.map_append, List.map_cons, List.map_nil]
    refine List.Chain'.append h5 (List.chain'_singleton _) ?_
    intro x hx y hy
    simp only [List.head?_cons, Option.mem_def, Option.some.injEq] at hy
    subst hy
    have hxm : x ∈ st.products.map fun p => p.pid := by
      exact List.mem_of_mem_getLast? hx
    rcases List.mem_map.1 hxm with ⟨p, hpm, rfl⟩
    exact h4 p hpm

/-- `hseq` preserves the run invariant when both parts do. -/
theorem inv_hseq {pn : String} {s : Nat} {r : HResult} {k : IfcState → HResult}
    (hr : Inv pn s r.1) (hk : ∀ st, Inv pn s st → Inv pn s (k st).1) :
    Inv pn s (hseq r k).1 := by
  obtain ⟨stx, e⟩ := r
  cases e with
  | none => exact hk stx hr
  | some e => exact hr

/-- Folding a step over a list with `hseq` preserves the run
invariant. -/
theorem inv_foldl {pn : String} {s : Nat} {α : Type} (step : IfcState → α → HResult)
    (hstep : ∀ st a, Inv pn s st → Inv pn s (step st a).1) :
    ∀ (ls : List α) (acc : HResult), Inv pn s acc.1 →
      Inv pn s (ls.foldl (fun a x => hseq a fun stA => step stA x) acc).1
  | [], _, h => h
  | _ :: t, _, h =>
    inv_foldl step hstep t _ (inv_hseq h fun st hst => hstep st _ hst)

/-- Each primitive handler preserves the run invariant. -/
theorem inv_create_box {pn : String} {s : Nat} {st : IfcState} {p : Params}
    (h : Inv pn s st) : Inv pn s (MainPy.create_box st s p).1 :=
  inv_emitProduct h

theorem inv_create_sphere {pn : String} {s : Nat} {st : IfcState} {p : Params}
    (h : Inv pn s st) : Inv pn s (MainPy.create_sphere st s p).1 :=
  inv_emitProduct h

theorem inv_create_cylinder {pn : String} {s : Nat} {st : IfcState} {p : Params}
    (h : Inv pn s st) : Inv pn s (MainPy.create_cylinder st s p).1 :=
  inv_emitProduct h

theorem inv_create_cone {pn : String} {s : Nat} {st : IfcState} {p : Params}
    (h : Inv pn s st) : Inv pn s (MainPy.create_cone st s p).1 :=
  inv_emitProduct h

theorem inv_create_plane {pn : String} {s : Nat} {st : IfcState} {p : Params}
    (h : Inv pn s st) : Inv pn s (MainPy.create_plane st s p).1 :=
  inv_emitProduct h

theorem inv_create_torus {pn : String} {s : Nat} {st : IfcState} {p : Params}
    (h : Inv pn s st) : Inv pn s (MainPy.create_torus st s p).1 :=
  inv_emitProduct h

theorem inv_create_wall {pn : String} {s : Nat} {st : IfcState} {p : Params}
    (h : Inv pn s st) : Inv pn s (MainPy.create_wall st s p).1 :=
  inv_emitProduct h

theorem inv_create_door {pn : String} {s : Nat} {st : IfcState} {p : Params}
    (h : Inv pn s st) : Inv pn s (MainPy.create_door st s p).1 :=
  inv_emitProduct h

theorem inv_create_window {pn : String} {s : Nat} {st : IfcState} {p : Params}
    (h : Inv pn s st) : Inv pn s (MainPy.create_window st s p).1 :=
  inv_emitProduct h

theorem inv_create_column {pn : String} {s : Nat} {st : IfcState} {p : Params}
    (h : Inv pn s st) : Inv pn s (MainPy.create_column st s p).1 :=
  inv_emitProduct h

theorem inv_create_beam {pn : String} {s : Nat} {st : IfcState} {p : Params}
    (h : Inv pn s st) : Inv pn s (MainPy.create_beam st s p).1 :=
  inv_emitProduct h

theorem inv_create_slab {pn : String} {s : Nat} {st : IfcState} {p : Params}
    (h : Inv pn s st) : Inv pn s (MainPy.create_slab st s p).1 :=
  inv_emitProduct h

theorem inv_create_roof {pn : String} {s : Nat} {st : IfcState} {p : Params}
    (h : Inv pn s st) : Inv pn s (MainPy.create_roof st s p).1 :=
  inv_emitProduct h

theorem inv_create_stairs {pn : String} {s : Nat} {st : IfcState} {p : Params}
    (h : Inv pn s st) : Inv pn s (MainPy.create_stairs st s p).1 := by
  rcases hq : pyRange (p.getNum "steps" 10) with _ | is
  · simpa [MainPy.create_stairs, hq] using h
  · by_cases he : is.isEmpty
    · simpa [MainPy.create_stairs, hq, he] using h
    · simpa [MainPy.create_stairs, hq, he] using inv_emitProduct h

theorem inv_create_room {pn : String} {s : Nat} {st : IfcState} {p : Params}
    (h : Inv pn s st) : Inv pn s (MainPy.create_room st s p).1 := by
  refine inv_hseq (inv_create_slab h) fun st1 h1 => ?_
  refine inv_hseq (inv_create_wall h1) fun st2 h2 => ?_
  refine inv_hseq (inv_create_wall h2) fun st3 h3 => ?_
  refine inv_hseq (inv_create_wall h3) fun st4 h4 => ?_
  refine inv_hseq (inv_create_wall h4) fun st5 h5 => ?_
  exact inv_create_slab h5

theorem inv_buildingFloor {pn : String} {s : Nat} {nm : String}
    {width depth floorHeight : ℚ} {st : IfcState} {fl : Nat} (h : Inv pn s st) :
    Inv pn s (MainPy.buildingFloor s nm width depth floorHeight st fl).1 := by
  refine inv_hseq (inv_foldl _ (fun stA pr hA => inv_create_column hA) _ _ h)
    fun stN hN => ?_
  by_cases hfl : fl > 0
  · simpa [MainPy.buildingFloor, hfl] using inv_create_slab hN
  · simpa [MainPy.buildingFloor, hfl] using hN

theorem inv_create_building {pn : String} {s : Nat} {st : IfcState} {p : Params}
    (h : Inv pn s st) : Inv pn s (MainPy.create_building st s p).1 := by
  refine inv_hseq (inv_create_slab h) fun st1 h1 => ?_
  rcases hq : pyRange (p.getNum "floors" 2) with _ | fls
  · simpa [hq] using h1
  · simp only [hq]
    refine inv_hseq (inv_foldl _ (fun stA fl hA => inv_buildingFloor hA) _ _ h1)
      fun stN hN => ?_
    exact inv_create_roof hN

/-- A successful association-list lookup returns a member. -/
theorem lookup_mem {β : Type _} : ∀ (l : List (String × β)) (k : String) (v : β),
    l.lookup k = some v → (k, v) ∈ l
  | [], _, _, h => by simp [List.lookup] at h
  | (a, b) :: t, k, v, h => by
    rw [List.lookup_cons] at h
    by_cases hk : k == a
    · simp only [hk, if_pos] at h
      obtain rfl : k = a := by simpa using hk
      obtain rfl : v = b := by simpa using h.symm
      exact List.mem_cons_self _ _
    · simp only [hk] at h
      exact List.mem_cons_of_mem _ (lookup_mem t k v h)

/-- Every handler reachable through the `ELEMENT_HANDLERS` table
preserves the run invariant. -/
theorem inv_handler (pn : String) (s : Nat) (fname : String) (h : Handler)
    (hl : MainPy.ELEMENT_HANDLERS.lookup fname = some h)
    (st : IfcState) (p : Params) (hI : Inv pn s st) : Inv pn s (h st s p).1 := by
  have hmem := lookup_mem _ _ _ hl
  fin_cases hmem
  · exact inv_create_box hI
  · exact inv_create_sphere hI
  · exact inv_create_cylinder hI
  · exact inv_create_cone hI
  · exact inv_create_plane hI
  · exact inv_create_torus hI
  · exact inv_create_wall hI
  · exact inv_create_door hI
  · exact inv_create_window hI
  · exact inv_create_column hI
  · exact inv_create_beam hI
  · exact inv_create_slab hI
  · exact inv_create_stairs hI
  · exact inv_create_roof hI
  · exact inv_create_room hI
  · exact inv_create_building hI

/-- One loop iteration of `generate_ifc` preserves the run
invariant. -/
theorem inv_processOne {pn : String} {s : Nat} {jl : MainPy.JsonLoads}
    {rs rs2 : MainPy.RunState} {tc : MainPy.ToolCall}
    (hp : MainPy.processOne jl s rs tc = Except.ok rs2) (hI : Inv pn s rs.st) :
    Inv pn s rs2.st := by
  unfold MainPy.processOne at hp
  rcases tc with ⟨nm, args⟩
  rcases hargs : (match args with
      | MainPy.ArgVal.dict p => Except.ok p
      | MainPy.ArgVal.str s => jl s) with e | pargs
  · rw [hargs] at hp; cases hp
  · rw [hargs] at hp
    rcases nm with _ | fname
    · obtain rfl : _ = rs2 := by simpa using hp
      exact hI
    · rcases hl : MainPy.ELEMENT_HANDLERS.lookup fname with _ | h
      · simp only [hl] at hp
        obtain rfl : _ = rs2 := by simpa using hp
        exact hI
      · simp only [hl] at hp
        rcases hrun : h rs.st s pargs with ⟨st2, e⟩
        have hinv2 : Inv pn s st2 := by
          have := inv_handler pn s fname h hl rs.st pargs hI
          rwa [hrun] at this
        cases e with
        | none =>
          rw [hrun] at hp
          obtain rfl : _ = rs2 := by simpa using hp
          exact hinv2
        | some e =>
          rw [hrun] at hp
          obtain rfl : _ = rs2 := by simpa using hp
          exact hinv2

/-- The whole instruction loop preserves the run invariant. -/
theorem inv_processToolCalls {pn : String} {s : Nat} {jl : MainPy.JsonLoads} :
    ∀ (calls : List MainPy.ToolCall) (rs rs2 : MainPy.RunState),
      MainPy.processToolCalls jl s rs calls = Except.ok rs2 →
      Inv pn s rs.st → Inv pn s rs2.st
  | [], rs, rs2, hp, hI => by
    obtain rfl : rs = rs2 := by simpa [MainPy.processToolCalls] using hp
    exact hI
  | c :: rest, rs, rs2, hp, hI => by
    rw [MainPy.processToolCalls] at hp
    rcases ho : MainPy.processOne jl s rs c with e | rsm
    · rw [ho] at hp; cases hp
    · rw [ho] at hp
      exact inv_processToolCalls rest rsm rs2 hp (inv_processOne ho hI)

/-- The skeleton state of a fresh run satisfies the invariant (with the
storey id `create_ifc_project` hands to the loop). -/
theorem inv_initRun (pn : String) : Inv pn 3 (MainPy.initRun pn).st := by
  refine ⟨rfl, rfl, rfl, ?_, ?_⟩ <;>
    simp [MainPy.initRun, MainPy.create_ifc_project]

/-- Filtering commutes with mapping. -/
theorem filter_of_map {α β : Type _} (f : α → β) (q : β → Bool) :
    ∀ l : List α, (l.map f).filter q = (l.filter fun a => q (f a)).map f
  | [] => rfl
  | a :: t => by
    by_cases hq : q (f a) <;>
      simp [List.filter_cons, hq, filter_of_map f q t]

/-- In a list of products with strictly increasing ids, filtering by
the id of a member returns exactly that member. -/
theorem filter_pid_single : ∀ (l : List Product),
    List.Pairwise (fun a b => a.pid < b.pid) l →
    ∀ p ∈ l, (l.filter fun q => q.pid == p.pid) = [p]
  | [], _, p, hp => absurd hp (List.not_mem_nil p)
  | a :: t, hpw, p, hp => by
    rcases List.pairwise_cons.1 hpw with ⟨ha, ht⟩
    rcases List.mem_cons.1 hp with rfl | hp2
    · have hnil : (t.filter fun q => q.pid == p.pid) = [] := by
        refine List.filter_eq_nil_iff.2 fun q hq => ?_
        simpa using (Nat.ne_of_lt (ha q hq)).symm
      simp [List.filter_cons, hnil]
    · have hne : (a.pid == p.pid) = false := by
        simpa using Nat.ne_of_lt (ha p hp2)
      simp [List.filter_cons, hne, filter_pid_single t ht p hp2]

/-- C8.  For every run whose instruction loop finishes: the spatial
skeleton is exactly the one `create_ifc_project` built once at run
start (Project 0 aggregating Site 1 aggregating Building 2 aggregating
the single default Storey 3 — so Project is the unique root and there
is exactly one Storey), and every created product has exactly one
containment edge, pointing at that Storey; no node was ever
re-parented (its one containment edge is the one written at creation,
and the aggregation edges are unchanged). -/
theorem c8_spatial_tree (jl : MainPy.JsonLoads) (req : MainPy.Request)
    (rs : MainPy.RunState)
    (h : MainPy.processToolCalls jl (MainPy.create_ifc_project req.project_name).2
        (MainPy.initRun req.project_name) req.tool_calls = Except.ok rs) :
    rs.st.spatial = (MainPy.create_ifc_project req.project_name).1.spatial
  ∧ (rs.st.spatial.filter fun n => n.2.1 == "IfcBuildingStorey").length = 1
  ∧ rs.st.aggregates = [(0, 1), (1, 2), (2, 3)]
  ∧ ∀ p ∈ rs.st.products,
      (rs.st.contained.filter fun e => e.1 == p.pid) = [(p.pid, 3)] := by
  have hI : Inv req.project_name 3 rs.st :=
    inv_processToolCalls req.tool_calls _ rs h (inv_initRun req.project_name)
  refine ⟨hI.spatial_eq, ?_, hI.agg_eq, ?_⟩
  · rw [hI.spatial_eq]
    simp [MainPy.create_ifc_project]
  · intro p hp
    have hpw : List.Pairwise (fun a b => a.pid < b.pid) rs.st.products := by
      have := hI.ids_mono
      rw [List.chain'_iff_pairwise] at this
      exact (List.pairwise_map).1 this
    rw [hI.contained_eq, filter_of_map]
    have : (rs.st.products.filter fun a => ((a.pid, 3).1 == p.pid)) = [p] :=
      filter_pid_single rs.st.products hpw p hp
    rw [this]
    rfl

/-- Witness for C8: a one-instruction batch of unknown kind. -/
theorem c8_spatial_tree_witness :
    (MainPy.initRun "Model").st.spatial
        = (MainPy.create_ifc_project "Model").1.spatial
  ∧ ((MainPy.initRun "Model").st.spatial.filter
        fun n => n.2.1 == "IfcBuildingStorey").length = 1
  ∧ (MainPy.initRun "Model").st.aggregates = [(0, 1), (1, 2), (2, 3)]
  ∧ ∀ p ∈ (MainPy.initRun "Model").st.products,
      ((MainPy.initRun "Model").st.contained.filter fun e => e.1 == p.pid)
        = [(p.pid, 3)] := by
  have h := c8_spatial_tree jlStrict reqZeroA
    ⟨(MainPy.create_ifc_project "Model").1, [],
     [MainPy.LogEntry.processing (some "create_pyramid"),
      MainPy.LogEntry.unknownKind (some "create_pyramid")]⟩
    (by with_unfolding_all rfl)
  exact h

end BB
